import Mathlib

/-!
Verification of the concurrent log-tailing core of `eks-shell.py`.

The Python source is shallowly embedded: pure formatting and list
manipulation become Lean functions; the thread fan-out of `tail_logs` is
modelled by per-source line streams merged under an arbitrary interleaving
schedule; the SIGINT handler becomes a step function on an explicit process
state; the process-management calls of `tail_pod_log` become an explicit
action trace.  Definitions come first, followed by the lemmas and the
theorems about them.
-/

namespace EksShell

/-- The fixed color palette `POD_COLORS` (source line 42). -/
def POD_COLORS : List String := ["red", "green", "yellow", "blue", "magenta", "cyan"]

/-- Color chosen for the pod at index `i` in `tail_logs` (line 176):
`POD_COLORS[i % len(POD_COLORS)]`. -/
def pod_color (i : Nat) : String := POD_COLORS.getD (i % POD_COLORS.length) ""

/-- The slice `pod[-5:]` as computed in `tail_pod_log` (line 143): the
character slice that starts five characters from the end, degrading to the
whole string when the name is shorter than five characters. -/
def tail_short_id (pod : String) : String :=
  (pod.toList.drop (pod.toList.length - 5)).asString

/-- The slice `pod[-5:]` as computed in `display_pods` (line 102). -/
def display_short_id (pod : String) : String :=
  (pod.toList.drop (pod.toList.length - 5)).asString

/-- The string printed by `tail_pod_log` (line 152):
`f"[{color}][{short_id}][/{color}] {line.rstrip()}"`. -/
def format_line (color short_id line : String) : String :=
  "[" ++ color ++ "][" ++ short_id ++ "][/" ++ color ++ "] " ++ line.trimRight

/-- Spec-side definition (§3 PodHandle): the short display identifier is the
final five characters of the pod name.  Stated independently of the slice
`pod[-5:]` of the source so that the two can be compared. -/
def spec_short_id (pod : String) : String :=
  (pod.toList.reverse.take 5).reverse.asString

/-! ### Concurrent fan-out model

`tail_logs` (lines 174-177) submits one `tail_pod_log` task per pod to a
thread pool sized to the number of pods.  Each task prints its own tagged
lines in order; the console interleaves lines from different tasks in an
arbitrary arrival order.  The console output of a session is modelled as the
merge of the per-pod streams under an arbitrary schedule: a list of pod
indices saying whose next line arrives at the sink. -/

/-- Merge the per-source streams `st` under the schedule `sch`: at each
schedule entry `i`, the next unemitted line of source `i` (if any) reaches
the shared sink, tagged with its source index. -/
def mergeStreams {n : Nat} {α : Type} : List (Fin n) → (Fin n → List α) → List (Fin n × α)
  | [], _ => []
  | i :: sch, st =>
    match st i with
    | [] => mergeStreams sch st
    | a :: rest => (i, a) :: mergeStreams sch (Function.update st i rest)

/-- A schedule is complete for the streams `st` when every source `i` is
scheduled exactly as many times as it has lines: the session runs to natural
completion, every emitted line arriving at the sink. -/
def validSchedule {n : Nat} {α : Type} (sch : List (Fin n)) (st : Fin n → List α) : Prop :=
  ∀ i, sch.count i = (st i).length

instance {n : Nat} {α : Type} [DecidableEq α] (sch : List (Fin n)) (st : Fin n → List α) :
    Decidable (validSchedule sch st) := by
  unfold validSchedule; infer_instance

/-- The subsequence of the sink output that came from source `i`. -/
def sink_proj {n : Nat} {α : Type} (i : Fin n) (out : List (Fin n × α)) : List α :=
  out.filterMap fun p => if p.1 = i then some p.2 else none

/-- The tagged line stream printed by the `tail_pod_log` task for pod index
`i`: each raw line of the remote output of that pod, formatted with the
cyclic color of index `i` (line 176) and the short identifier (lines 143,
152). -/
def tagged_stream (pods : List String) (logs : Fin pods.length → List String)
    (i : Fin pods.length) : List String :=
  (logs i).map (format_line (pod_color i.1) (tail_short_id (pods.get i)))

/-- Console output of a `tail_logs` session that runs to natural completion:
pod `i` emits the raw lines `logs i`, and `sch` fixes the cross-pod arrival
interleaving at the sink. -/
def session_output (pods : List String) (logs : Fin pods.length → List String)
    (sch : List (Fin pods.length)) : List (Fin pods.length × String) :=
  mergeStreams sch (tagged_stream pods logs)

/-! ### Failure model of tail_pod_log -/

/-- Result of a Python `try` block: a normal return or an exception. -/
inductive TryResult (α : Type) where
  | ok (a : α)
  | exn
deriving DecidableEq, Repr

/-- What the remote tail attempt of one pod does: either the spawn itself
raises (line 145), or the spawned process streams `ls` lines and then either
ends cleanly (EOF) or the read raises (`readError`). -/
inductive PodOutcome where
  | spawnError
  | streamed (ls : List String) (readError : Bool)
deriving DecidableEq, Repr

/-- The `try` body of `tail_pod_log` (lines 144-152): the tagged lines
printed before the body finishes, and whether it finishes normally or with an
exception. -/
def tail_pod_log_try (pod color : String) : PodOutcome → List String × TryResult Unit
  | .spawnError => ([], .exn)
  | .streamed ls e =>
    (ls.map (format_line color (tail_short_id pod)), if e then .exn else .ok ())

/-- The catch-all `except Exception: pass` (lines 153-154): any try outcome
becomes a normal return. -/
def catch_all_pass : TryResult Unit → TryResult Unit
  | .ok a => .ok a
  | .exn => .ok ()

/-- The function `tail_pod_log` (lines 141-154): the `try` body with every
exception swallowed by the catch-all. -/
def tail_pod_log (pod color : String) (o : PodOutcome) : List String × TryResult Unit :=
  ((tail_pod_log_try pod color o).1, catch_all_pass (tail_pod_log_try pod color o).2)

/-- The tagged lines one pod actually delivers to the console under an
outcome: nothing if its spawn failed, otherwise whatever was streamed before
EOF or the read error. -/
def outcome_stream (pod color : String) (o : PodOutcome) : List String :=
  (tail_pod_log pod color o).1

/-- The per-pod streams of a session in which pod `i` has outcome
`outcomes i`. -/
def outcome_streams (pods : List String) (outcomes : Fin pods.length → PodOutcome) :
    Fin pods.length → List String :=
  fun i => outcome_stream (pods.get i) (pod_color i.1) (outcomes i)

/-- Console output of such a session. -/
def session_output_outcomes (pods : List String)
    (outcomes : Fin pods.length → PodOutcome) (sch : List (Fin pods.length)) :
    List (Fin pods.length × String) :=
  mergeStreams sch (outcome_streams pods outcomes)

/-! ### The executor fan-out of tail_logs -/

/-- The thread-pool call made by `tail_logs`, reduced to its observable
shape: the pool size, the submitted tasks in submission order, and whether
the surrounding `with` block waits for all tasks on shutdown. -/
structure ExecutorCall where
  max_workers : Nat
  tasks : List (String × String × String × String)
  shutdown_wait : Bool
deriving DecidableEq, Repr

/-- The function `tail_logs` (lines 157-177): a
`ThreadPoolExecutor(max_workers=len(pods))` receiving one
`tail_pod_log(pod, namespace, log_file, color)` task per pod, with
`color = POD_COLORS[i % len(POD_COLORS)]`; the `with` block shuts the pool
down waiting for every task. -/
def tail_logs (pods : List String) (ns log_file : String) : ExecutorCall :=
  { max_workers := pods.length
  , tasks := pods.enum.map fun p => (p.2, ns, log_file, pod_color p.1)
  , shutdown_wait := true }

/-! ### The SIGINT handler

`tail_logs` installs `signal_handler` for SIGINT (line 172); the handler
prints one stopping notice and calls `sys.exit(0)` (lines 168-170).
`sys.exit(0)` does not end the process: it raises `SystemExit(0)` in the
main thread, which then unwinds into the shutdown of the executor and of the
interpreter, both of which join the worker threads — and those block reading
their `tail -f` pipes.  During that whole window the process is still alive
and the handler is still installed, so a further SIGINT runs it again.  The
process is modelled by an explicit state: its phase (running, shutting down
with a `SystemExit` pending, or actually exited), everything the handler has
printed, the status carried by the raised `SystemExit`, and the status the
process finally exited with. -/

/-- The notice printed by `signal_handler` (line 169). -/
def stopping_notice : String := "\n[yellow]Stopping log tail...[/yellow]"

/-- Exit status of an uninterrupted run: `main` returns normally and the
interpreter exits with status 0. -/
def success_exit_code : Nat := 0

/-- Phase of the tailing process: running normally; shutting down — a raised
`SystemExit` is unwinding while the main thread joins the still-blocked
workers, the handler still installed; or actually exited. -/
inductive Phase where
  | running
  | shuttingDown
  | exited
deriving DecidableEq, Repr

/-- Observable process state while `tail_logs` runs. -/
structure ProcState where
  phase : Phase
  printed : List String
  pending_exit : Option Nat
  exit_code : Option Nat
deriving DecidableEq, Repr

/-- The state in which tailing starts: sources active, nothing printed by the
handler, process running. -/
def init_state : ProcState :=
  { phase := Phase.running, printed := [], pending_exit := none, exit_code := none }

/-- The handler `signal_handler` (lines 168-170): print the stopping notice
and call `sys.exit(0)`, i.e. raise `SystemExit(0)`.  The handler has no
once-guard: run a second time it prints again and re-raises. -/
def signal_handler (s : ProcState) : ProcState :=
  { phase := Phase.shuttingDown
  , printed := s.printed ++ [stopping_notice]
  , pending_exit := some 0
  , exit_code := s.exit_code }

/-- Delivery of one SIGINT: as long as the process has not actually exited —
running, or still unwinding and joining its blocked workers — the installed
handler runs (line 172); only a process that has exited absorbs the
signal. -/
def deliver_sigint (s : ProcState) : ProcState :=
  if s.phase = Phase.exited then s else signal_handler s

/-- Delivery of `k` consecutive SIGINTs, each arriving before the shutdown
has completed. -/
def deliver_sigints : Nat → ProcState → ProcState
  | 0, s => s
  | k + 1, s => deliver_sigints k (deliver_sigint s)

/-- Completion of the interpreter shutdown: once the worker joins finish, the
status carried by the pending `SystemExit` becomes the actual exit status of
the process. -/
def finish_shutdown (s : ProcState) : ProcState :=
  if s.phase = Phase.shuttingDown then
    { s with phase := Phase.exited, exit_code := s.pending_exit }
  else s

/-! ### Process-management actions of a worker

`tail_pod_log` spawns its `kubectl exec ... tail -f` process with `Popen`
(lines 145-150) and then only reads from it (line 151): the function body
contains no `terminate`, `kill` or `wait` call, and neither does
`tail_logs`. -/

/-- Actions a worker can perform on its remote process. -/
inductive SrcAction where
  | spawn (pod ns log_file : String)
  | read (line : String)
  | stop
deriving DecidableEq, Repr

/-- The action trace of a `tail_pod_log` worker whose spawn succeeds and
whose stream delivers `ls` before ending: one spawn followed by the reads of
the `for line in proc.stdout` loop. -/
def tail_pod_log_actions (pod ns log_file : String) (ls : List String) : List SrcAction :=
  SrcAction.spawn pod ns log_file :: ls.map SrcAction.read

/-! ### Pod resolution and the tail of main -/

/-- The Python substring test `pattern in line` (line 89). -/
def contains_sub (line pattern : String) : Bool :=
  (List.range (line.toList.length + 1)).any fun k =>
    (line.toList.drop k).take pattern.toList.length == pattern.toList

/-- The Python `str.strip()` call (line 88): remove leading and trailing
whitespace characters. -/
def py_strip (s : String) : String :=
  ((s.toList.dropWhile Char.isWhitespace).reverse.dropWhile Char.isWhitespace).reverse.asString

/-- The Python `split("\n")` on a character list: cut at every newline,
keeping empty pieces. -/
def split_nl_chars : List Char → List (List Char)
  | [] => [[]]
  | c :: cs =>
    if c = Char.ofNat 10 then [] :: split_nl_chars cs
    else
      match split_nl_chars cs with
      | [] => [[c]]
      | g :: gs => (c :: g) :: gs

/-- The Python `stdout.strip().split("\n")` of line 88. -/
def split_nl (s : String) : List String :=
  (split_nl_chars s.toList).map List.asString

/-- The Python argument-less `split`: whitespace-separated tokens, empty
fields dropped; `acc` holds the reversed characters of the token being
read. -/
def py_words : List Char → List Char → List (List Char)
  | [], acc => if acc.isEmpty then [] else [acc.reverse]
  | c :: cs, acc =>
    if c.isWhitespace then
      if acc.isEmpty then py_words cs [] else acc.reverse :: py_words cs []
    else py_words cs (c :: acc)

/-- The expression `line.split()[0]` (line 90): the first whitespace-separated
token of the line. -/
def first_token (line : String) : String :=
  ((py_words line.toList []).headD []).asString

/-- The function `get_pods` (lines 82-91): empty when the listing command
fails, otherwise the first token of every non-empty line of the stripped
stdout that contains the pattern. -/
def get_pods (returncode : Int) (stdout : String) (pattern : String) : List String :=
  if returncode ≠ 0 then []
  else
    ((split_nl (py_strip stdout)).filter fun line =>
        (line != "") && contains_sub line pattern).map first_token

/-- Observable events of `main` after pod resolution (lines 232-264). -/
inductive MainEvent where
  | print_msg (m : String)
  | display (pods : List String)
  | tail_session (pods : List String) (log_file : String)
  | exec_session (pod : String)
deriving DecidableEq, Repr

/-- How `main` ends: raising `typer.Exit(code)` or returning normally. -/
inductive MainResult where
  | exited (code : Nat)
  | returned
deriving DecidableEq, Repr

/-- A single-quote character, written by code point. -/
def squote : String := String.mk [Char.ofNat 39]

/-- The error line printed when no pod matches (line 233). -/
def no_pods_msg (pattern : String) : String :=
  "[red]❌ No pods found matching " ++ squote ++ pattern ++ squote ++ "[/red]"

/-- The hint panel shown when neither `--log` nor `--pod` is given
(lines 248-254), reduced to its text. -/
def hint_msg : String :=
  "[bold]--pod <number>[/bold]  Connect to a specific pod\n[bold]--log[/bold]           Tail logs from all pods"

/-- The error line for an out-of-range pod number (line 259). -/
def invalid_pod_msg (pod_num : Int) (count : Nat) : String :=
  "[red]❌ Invalid pod number " ++ squote ++ toString pod_num ++ squote ++
    ". Choose 1-" ++ toString count ++ "[/red]"

/-- The tail of `main` from the `if not pods` check on (lines 232-264): an
empty pod list exits with status 1 after a single error line; otherwise the
pods are displayed and the log-tail, hint, or exec branch runs. -/
def main_after_get_pods (pods : List String) (env_long pattern : String)
    (log_file : Option String) (pod_num : Option Int) : List MainEvent × MainResult :=
  if pods.isEmpty then
    ([MainEvent.print_msg (no_pods_msg pattern)], MainResult.exited 1)
  else
    match log_file with
    | some lf =>
      let lf := if lf = "" then "/app/log/" ++ env_long ++ ".log" else lf
      ([MainEvent.display pods, MainEvent.tail_session pods lf], MainResult.returned)
    | none =>
      match pod_num with
      | none =>
        ([MainEvent.display pods, MainEvent.print_msg hint_msg], MainResult.returned)
      | some pn =>
        if pn < 1 ∨ pn > (pods.length : Int) then
          ([MainEvent.display pods,
            MainEvent.print_msg (invalid_pod_msg pn pods.length)], MainResult.exited 1)
        else
          ([MainEvent.display pods,
            MainEvent.exec_session (pods.getD (pn - 1).toNat "")], MainResult.returned)

/-! ### Concrete inputs used by the witnesses -/

/-- Concrete two-pod session used by the witnesses. -/
def wpods : List String := ["web-abc12", "web-xyz89"]

/-- Concrete raw lines: pod 0 emits two lines, pod 1 emits one. -/
def wlogs : Fin wpods.length → List String := fun j => [["hello", "bye"], ["x"]].getD j.1 []

/-- Concrete arrival schedule interleaving pod 1 between the lines of pod 0. -/
def wsch : List (Fin wpods.length) := [⟨0, by decide⟩, ⟨1, by decide⟩, ⟨0, by decide⟩]

/-- Concrete outcome map used by the C7 witness: the spawn of pod 0 fails,
pod 1 streams one line. -/
def woutcomes : Fin wpods.length → PodOutcome :=
  fun j => [PodOutcome.spawnError, PodOutcome.streamed ["x"] false].getD j.1
    PodOutcome.spawnError

/-- Concrete schedule for the C7 witness: only pod 1 ever delivers a line. -/
def wsch1 : List (Fin wpods.length) := [⟨1, by decide⟩]

/-! ### Lemmas -/

lemma drop_length_sub_eq {α : Type} (l : List α) (n : Nat) :
    l.drop (l.length - n) = (l.reverse.take n).reverse := by
  have h : (l.reverse.take n).reverse = l.reverse.reverse.drop (l.reverse.length - n) :=
    List.reverse_take
  simpa using h.symm

/-- The slice of the source agrees with the "final five characters" of the
spec. -/
lemma tail_short_id_eq_spec (pod : String) : tail_short_id pod = spec_short_id pod := by
  unfold tail_short_id spec_short_id
  rw [drop_length_sub_eq]

example : tail_short_id "web-deploy-abc12" = "abc12" := by decide
example : tail_short_id "p1" = "p1" := by decide
example : pod_color 7 = "green" := by decide

lemma mergeStreams_cons_nil {n : Nat} {α : Type} {i : Fin n} {sch : List (Fin n)}
    {st : Fin n → List α} (hi : st i = []) :
    mergeStreams (i :: sch) st = mergeStreams sch st := by
  rw [mergeStreams, hi]

lemma mergeStreams_cons {n : Nat} {α : Type} {i : Fin n} {sch : List (Fin n)}
    {st : Fin n → List α} {a : α} {rest : List α} (hi : st i = a :: rest) :
    mergeStreams (i :: sch) st = (i, a) :: mergeStreams sch (Function.update st i rest) := by
  rw [mergeStreams, hi]

lemma validSchedule_tail {n : Nat} {α : Type} {i : Fin n} {sch : List (Fin n)}
    {st : Fin n → List α} {a : α} {rest : List α}
    (h : validSchedule (i :: sch) st) (hi : st i = a :: rest) :
    validSchedule sch (Function.update st i rest) := by
  intro j
  rcases eq_or_ne j i with rfl | hne
  · have hj := h j
    rw [List.count_cons_self, hi] at hj
    have := Nat.succ_injective (by simpa using hj)
    simpa [Function.update_same] using this
  · have hj := h j
    rw [List.count_cons_of_ne hne] at hj
    simpa [Function.update_noteq hne] using hj

lemma validSchedule_cons_ne_nil {n : Nat} {α : Type} {i : Fin n} {sch : List (Fin n)}
    {st : Fin n → List α} (h : validSchedule (i :: sch) st) : st i ≠ [] := by
  intro hnil
  have hj := h i
  rw [List.count_cons_self, hnil] at hj
  simp at hj

/-- Natural completion loses and duplicates nothing: the sink receives
exactly the multiset union of the per-source streams. -/
lemma mergeStreams_multiset {n : Nat} {α : Type} :
    ∀ (sch : List (Fin n)) (st : Fin n → List α), validSchedule sch st →
    ((mergeStreams sch st : List (Fin n × α)) : Multiset (Fin n × α)) =
      ∑ j : Fin n, (((st j).map fun x => (j, x) : List (Fin n × α)) : Multiset (Fin n × α)) := by
  intro sch
  induction sch with
  | nil =>
    intro st h
    have hnil : ∀ j, st j = [] := fun j =>
      List.eq_nil_of_length_eq_zero ((h j).symm.trans (by simp))
    simp [mergeStreams, hnil]
  | cons i sch ih =>
    intro st h
    cases hi : st i with
    | nil => exact absurd hi (validSchedule_cons_ne_nil h)
    | cons a rest =>
      have hv := validSchedule_tail h hi
      have hupd :
          (fun j => (((Function.update st i rest j).map fun x => (j, x) : List (Fin n × α)) :
              Multiset (Fin n × α)))
            = Function.update
                (fun j => (((st j).map fun x => (j, x) : List (Fin n × α)) : Multiset (Fin n × α)))
                i ((rest.map fun x => (i, x) : List (Fin n × α)) : Multiset (Fin n × α)) := by
        funext j
        rcases eq_or_ne j i with rfl | hne
        · simp [Function.update_same]
        · simp [Function.update_noteq hne]
      rw [mergeStreams_cons hi, ← Multiset.cons_coe, ih _ hv, hupd,
        Finset.sum_update_of_mem (Finset.mem_univ i),
        Finset.sum_eq_sum_diff_singleton_add (Finset.mem_univ i)
          (fun j => (((st j).map fun x => (j, x) : List (Fin n × α)) : Multiset (Fin n × α))),
        hi]
      simp only [List.map_cons, ← Multiset.cons_coe]
      rw [← Multiset.cons_add, add_comm]

/-- Per-source FIFO: under any complete schedule the subsequence of the
sink output that came from source `i` is exactly the stream of source `i`,
in order. -/
lemma mergeStreams_proj {n : Nat} {α : Type} :
    ∀ (sch : List (Fin n)) (st : Fin n → List α), validSchedule sch st →
    ∀ i, sink_proj i (mergeStreams sch st) = st i := by
  intro sch
  induction sch with
  | nil =>
    intro st h i
    have hnil : ∀ j, st j = [] := fun j =>
      List.eq_nil_of_length_eq_zero ((h j).symm.trans (by simp))
    simp [mergeStreams, sink_proj, hnil]
  | cons i sch ih =>
    intro st h j
    cases hi : st i with
    | nil => exact absurd hi (validSchedule_cons_ne_nil h)
    | cons a rest =>
      have hv := validSchedule_tail h hi
      have hrec := ih _ hv j
      rw [mergeStreams_cons hi]
      rcases eq_or_ne j i with rfl | hne
      · rw [Function.update_same] at hrec
        simp only [sink_proj, List.filterMap_cons] at hrec ⊢
        simp [hrec, hi]
      · rw [Function.update_noteq hne] at hrec
        simp only [sink_proj, List.filterMap_cons, if_neg (Ne.symm hne)] at hrec ⊢
        exact hrec

lemma deliver_sigint_live {s : ProcState} (h : s.phase ≠ Phase.exited) :
    deliver_sigint s = signal_handler s := by
  rw [deliver_sigint, if_neg h]

/-- Every SIGINT arriving before the process has actually exited re-runs the
still-installed handler, appending one more stopping notice. -/
lemma deliver_sigints_printed :
    ∀ (k : Nat) (s : ProcState), s.phase ≠ Phase.exited →
    (deliver_sigints k s).printed = s.printed ++ List.replicate k stopping_notice := by
  intro k
  induction k with
  | zero =>
    intro s h
    simp [deliver_sigints]
  | succ k ih =>
    intro s h
    rw [deliver_sigints, deliver_sigint_live h]
    have h2 : (signal_handler s).phase ≠ Phase.exited := by
      simp [signal_handler]
    rw [ih _ h2]
    simp [signal_handler, List.replicate_succ]

/-- Once a `SystemExit(0)` has been raised, further handler runs keep the
process in the shutting-down phase with the same pending status. -/
lemma deliver_sigints_request :
    ∀ (k : Nat) (s : ProcState), s.phase = Phase.shuttingDown →
    s.pending_exit = some 0 →
    (deliver_sigints k s).phase = Phase.shuttingDown ∧
    (deliver_sigints k s).pending_exit = some 0 := by
  intro k
  induction k with
  | zero =>
    intro s h1 h2
    exact ⟨h1, h2⟩
  | succ k ih =>
    intro s h1 h2
    rw [deliver_sigints, deliver_sigint_live (by rw [h1]; intro hc; cases hc)]
    exact ih _ rfl rfl

lemma deliver_sigints_pos (k : Nat) (h : 1 ≤ k) :
    (deliver_sigints k init_state).phase = Phase.shuttingDown ∧
    (deliver_sigints k init_state).pending_exit = some 0 := by
  obtain ⟨m, rfl⟩ := Nat.exists_eq_add_of_le h
  rw [Nat.add_comm, deliver_sigints,
    deliver_sigint_live (by intro hc; cases hc)]
  exact deliver_sigints_request m _ rfl rfl

example :
    get_pods 0 "web-abc12 1/1 Running\napi-1 1/1 Running\n\nweb-xyz89 1/1 Running\n" "web"
      = ["web-abc12", "web-xyz89"] := by decide

example : get_pods 1 "web-abc12 1/1 Running" "web" = [] := by decide

example :
    main_after_get_pods ["web-abc12"] "production" "web" (some "") none
      = ([MainEvent.display ["web-abc12"],
          MainEvent.tail_session ["web-abc12"] "/app/log/production.log"],
         MainResult.returned) := by decide

example :
    main_after_get_pods ["web-abc12", "web-xyz89"] "production" "web" none (some 2)
      = ([MainEvent.display ["web-abc12", "web-xyz89"],
          MainEvent.exec_session "web-xyz89"], MainResult.returned) := by decide

/-! ### Claims -/

/-- **C1** counterexample: an interrupt delivered to the active session makes
the process exit with status 0, which is exactly the success status — the
claimed distinct, non-zero interrupted-exit status does not exist in the
code (`sys.exit(0)`, line 170). -/
theorem C1_counterexample :
    (finish_shutdown (deliver_sigint init_state)).exit_code = some success_exit_code ∧
    success_exit_code = 0 := by
  exact ⟨rfl, rfl⟩

/-- **C1 (amended)**: if one or more interrupts are delivered while the
session is active, the process exits with status 0 once its shutdown
completes — the same status as a normal successful run, not a distinct
interrupted status (every handler run raises `SystemExit(0)`). -/
theorem C1_amended_exit_status (k : Nat) (h : 1 ≤ k) :
    (finish_shutdown (deliver_sigints k init_state)).exit_code = some success_exit_code := by
  obtain ⟨h1, h2⟩ := deliver_sigints_pos k h
  rw [finish_shutdown, if_pos h1]
  exact h2

theorem C1_amended_exit_status_witness :
    1 ≤ 2 ∧
    (finish_shutdown (deliver_sigints 2 init_state)).exit_code = some success_exit_code :=
  ⟨by decide, C1_amended_exit_status 2 (by decide)⟩

/-- **C2** counterexample: a worker whose stream is exhausted finishes
without its source ever being told to stop — its complete action trace
contains no stop action — so `run` returns to the caller with no source
stopped and no process explicitly terminated or reaped. -/
theorem C2_counterexample :
    SrcAction.stop ∉ tail_pod_log_actions "web-abc12" "cms" "/app/log/production.log" ["x"] := by
  decide

/-- **C2 (amended)**: on natural completion the aggregator does block until
every worker task finishes — the `with` block of the executor shuts down
waiting — but no spawned source is ever told to stop and no underlying
process is explicitly terminated or reaped: every worker action trace is a
spawn followed only by reads. -/
theorem C2_amended_wait_but_no_stop (pods : List String) (ns log_file pod : String)
    (ls : List String) :
    (tail_logs pods ns log_file).shutdown_wait = true ∧
    SrcAction.stop ∉ tail_pod_log_actions pod ns log_file ls := by
  refine ⟨rfl, ?_⟩
  simp [tail_pod_log_actions]

/-- **C3** (code bug): the handler has no once-guard and stays installed
while the main thread joins the still-blocked workers, so every interrupt
delivered before the process has actually exited prints the stopping notice
again: `k` interrupts in that window print it `k` times; in particular a
second interrupt prints a second notice and re-raises `SystemExit`,
contradicting the exactly-once, no-further-effect requirement of the
claim. -/
theorem C3_notice_per_interrupt (k : Nat) :
    (deliver_sigints k init_state).printed.count stopping_notice = k ∧
    (deliver_sigints 2 init_state).printed = [stopping_notice, stopping_notice] := by
  constructor
  · rw [deliver_sigints_printed k init_state (by intro hc; cases hc)]
    simp [init_state]
  · decide

/-- **C4**: for every N ≥ 1 pods and every assignment of emitted lines to
sources, a session that runs to natural completion delivers to the sink
exactly the multiset union of all lines emitted by all sources — no line
lost, none duplicated — whatever the cross-source interleaving schedule. -/
theorem C4_sink_receives_every_line (pods : List String)
    (logs : Fin pods.length → List String) (sch : List (Fin pods.length))
    (h : validSchedule sch (tagged_stream pods logs)) :
    ((session_output pods logs sch : List (Fin pods.length × String)) :
        Multiset (Fin pods.length × String)) =
      ∑ j : Fin pods.length,
        (((tagged_stream pods logs j).map fun l => (j, l) : List (Fin pods.length × String)) :
          Multiset (Fin pods.length × String)) :=
  mergeStreams_multiset sch (tagged_stream pods logs) h

theorem C4_sink_receives_every_line_witness :
    validSchedule wsch (tagged_stream wpods wlogs) ∧
    ((session_output wpods wlogs wsch : List (Fin wpods.length × String)) :
        Multiset (Fin wpods.length × String)) =
      ∑ j : Fin wpods.length,
        (((tagged_stream wpods wlogs j).map fun l => (j, l) : List (Fin wpods.length × String)) :
          Multiset (Fin wpods.length × String)) :=
  ⟨by decide, C4_sink_receives_every_line wpods wlogs wsch (by decide)⟩

/-- **C5**: for every single pod, the order of the tagged lines of that pod
at the sink is exactly the order in which the source emitted them:
per-source FIFO is preserved under every interleaving schedule. -/
theorem C5_per_source_fifo (pods : List String)
    (logs : Fin pods.length → List String) (sch : List (Fin pods.length))
    (h : validSchedule sch (tagged_stream pods logs)) (i : Fin pods.length) :
    sink_proj i (session_output pods logs sch) = tagged_stream pods logs i :=
  mergeStreams_proj sch (tagged_stream pods logs) h i

theorem C5_per_source_fifo_witness :
    validSchedule wsch (tagged_stream wpods wlogs) ∧
    sink_proj ⟨0, by decide⟩ (session_output wpods wlogs wsch) =
      tagged_stream wpods wlogs ⟨0, by decide⟩ :=
  ⟨by decide, C5_per_source_fifo wpods wlogs wsch (by decide) ⟨0, by decide⟩⟩

/-- **C6**: tagging is a pure, deterministic function of pod index and name:
the palette has exactly six entries, the category chosen for index `i` is
palette entry `i mod 6`, the short display identifier is the final five
characters of the pod name, and the displayed line is determined by these
alone. -/
theorem C6_tag_deterministic (i : Nat) (pod line : String) :
    POD_COLORS.length = 6 ∧
    pod_color i = POD_COLORS.getD (i % 6) "" ∧
    tail_short_id pod = spec_short_id pod ∧
    format_line (pod_color i) (tail_short_id pod) line
      = format_line (POD_COLORS.getD (i % 6) "") (spec_short_id pod) line := by
  refine ⟨rfl, rfl, tail_short_id_eq_spec pod, ?_⟩
  rw [tail_short_id_eq_spec]
  rfl

/-- **C7**: a failing source is isolated: `tail_pod_log` never lets an
exception escape to the session, the subsequence of every pod at the sink is
exactly its own stream whatever the outcomes of its siblings are, and a pod
whose spawn failed contributes nothing while the session still completes. -/
theorem C7_failure_isolated (pods : List String)
    (outcomes : Fin pods.length → PodOutcome) (sch : List (Fin pods.length))
    (h : validSchedule sch (outcome_streams pods outcomes)) (j : Fin pods.length) :
    (∀ pod color o, (tail_pod_log pod color o).2 = TryResult.ok ()) ∧
    sink_proj j (session_output_outcomes pods outcomes sch)
      = outcome_streams pods outcomes j ∧
    (outcomes j = PodOutcome.spawnError →
      sink_proj j (session_output_outcomes pods outcomes sch) = []) := by
  have hproj : sink_proj j (session_output_outcomes pods outcomes sch)
      = outcome_streams pods outcomes j :=
    mergeStreams_proj sch (outcome_streams pods outcomes) h j
  refine ⟨fun pod color o => ?_, hproj, fun hj => ?_⟩
  · cases o with
    | spawnError => rfl
    | streamed ls e => cases e <;> rfl
  · rw [hproj]
    simp [outcome_streams, outcome_stream, tail_pod_log, tail_pod_log_try, hj]

theorem C7_failure_isolated_witness :
    validSchedule wsch1 (outcome_streams wpods woutcomes) ∧
    ((∀ pod color o, (tail_pod_log pod color o).2 = TryResult.ok ()) ∧
      sink_proj ⟨0, by decide⟩ (session_output_outcomes wpods woutcomes wsch1)
        = outcome_streams wpods woutcomes ⟨0, by decide⟩ ∧
      (woutcomes ⟨0, by decide⟩ = PodOutcome.spawnError →
        sink_proj ⟨0, by decide⟩ (session_output_outcomes wpods woutcomes wsch1) = [])) :=
  ⟨by decide, C7_failure_isolated wpods woutcomes wsch1 (by decide) ⟨0, by decide⟩⟩

/-- **C8**: one worker per pod: the pool is sized exactly to the number of
pods and exactly one task is submitted per pod — task `i` tails pod `i` —
so no source ever queues behind another worker. -/
theorem C8_one_worker_per_pod (pods : List String) (ns log_file : String) :
    (tail_logs pods ns log_file).max_workers = pods.length ∧
    (tail_logs pods ns log_file).tasks.length = pods.length ∧
    ∀ i : Fin pods.length,
      (tail_logs pods ns log_file).tasks.get ⟨i.1, by simp [tail_logs]⟩
        = (pods.get i, ns, log_file, pod_color i.1) := by
  refine ⟨rfl, by simp [tail_logs], fun i => ?_⟩
  simp [tail_logs, List.get_eq_getElem, List.getElem_map, List.getElem_enum]

/-- **C9**: a pod name shorter than five characters yields the whole name as
its short identifier, in the pod listing and in the log tags alike. -/
theorem C9_short_name_whole (pod : String) (h : pod.toList.length < 5) :
    tail_short_id pod = pod ∧ display_short_id pod = pod ∧
    display_short_id pod = tail_short_id pod := by
  have h0 : pod.toList.length - 5 = 0 := Nat.sub_eq_zero_of_le h.le
  refine ⟨?_, ?_, rfl⟩
  · unfold tail_short_id
    rw [h0, List.drop_zero, String.asString_toList]
  · unfold display_short_id
    rw [h0, List.drop_zero, String.asString_toList]

theorem C9_short_name_whole_witness :
    ("p1" : String).toList.length < 5 ∧
    (tail_short_id "p1" = "p1" ∧ display_short_id "p1" = "p1" ∧
      display_short_id "p1" = tail_short_id "p1") :=
  ⟨by decide, C9_short_name_whole "p1" (by decide)⟩

/-- **C10**: if pod resolution yields an empty list — because the listing
command failed or because no line matches the pattern — `main` prints exactly
one error line and exits with status 1; its trace contains no display, no
tail session and no exec session. -/
theorem C10_empty_pods_exit_one (rc : Int) (stdout pattern env_long : String)
    (log_file : Option String) (pod_num : Option Int)
    (h : rc ≠ 0 ∨ get_pods rc stdout pattern = []) :
    main_after_get_pods (get_pods rc stdout pattern) env_long pattern log_file pod_num
      = ([MainEvent.print_msg (no_pods_msg pattern)], MainResult.exited 1) := by
  have hempty : get_pods rc stdout pattern = [] := by
    rcases h with h | h
    · simp [get_pods, h]
    · exact h
  rw [hempty]
  rfl

theorem C10_empty_pods_exit_one_witness :
    ((1 : Int) ≠ 0 ∨ get_pods 1 "web-abc12 1/1 Running" "web" = []) ∧
    main_after_get_pods (get_pods 1 "web-abc12 1/1 Running" "web") "production" "web"
        (some "/app/log/production.log") none
      = ([MainEvent.print_msg (no_pods_msg "web")], MainResult.exited 1) :=
  ⟨Or.inl (by decide),
    C10_empty_pods_exit_one 1 "web-abc12 1/1 Running" "web" "production"
      (some "/app/log/production.log") none (Or.inl (by decide))⟩

end EksShell
